import Mathlib

/-!
Shallow embedding of the authenticated MCP server in `test.py` and of the
raw HTTP math server in `math_test.py`, together with theorems settling the
specification claims about them.

Python JSON-like runtime values are modelled by `Value` (numbers collapsed
to `ℚ`; the scripts only ever add, multiply or divide them), Python `dict`s
of string keys by association lists, raised exceptions by `Except String`.
Exception message texts are kept close to CPython's wording but drop the
quotation marks CPython puts around type names; no claim depends on the
exact wording, only on which message is produced and where it is surfaced.
Wall-clock timestamps (`datetime.utcnow().isoformat()`) are threaded in as
an explicit `now : String` parameter.
-/

namespace MCPTest

/-- A Python/JSON runtime value as used by the scripts. -/
inductive Value where
  | num (q : ℚ)
  | str (s : String)
  | list (xs : List Value)
  | dict (fields : List (String × Value))
  | vnone
deriving Repr

/-- A Python dict with string keys, as produced by `json.loads` for objects.
Keys are assumed distinct, as in every request the scripts handle. -/
abbrev Args := List (String × Value)

/-- `d.get(key)` lookup returning `some` value or `none` when absent. -/
def argsFind : Args → String → Option Value
  | [], _ => Option.none
  | (k, v) :: rest, key => if k = key then some v else argsFind rest key

/-- Python `d.get(key)`: absent keys give `None`. -/
def argsGet (args : Args) (key : String) : Value :=
  match argsFind args key with
  | some v => v
  | Option.none => .vnone

/-- Python `d.get(key, default)`. -/
def argsGetD (args : Args) (key : String) (default : Value) : Value :=
  match argsFind args key with
  | some v => v
  | Option.none => default

/-- Python truthiness (`if not token:` etc.) on the modelled values. -/
def Value.truthy : Value → Bool
  | .num q => decide (q ≠ 0)
  | .str s => decide (s ≠ "")
  | .list xs => !xs.isEmpty
  | .dict d => !d.isEmpty
  | .vnone => false

/-- Python type name of a value, used in TypeError messages.  Numbers are
collapsed to `int`; the distinction from `float` is not load-bearing. -/
def Value.pyType : Value → String
  | .num _ => "int"
  | .str _ => "str"
  | .list _ => "list"
  | .dict _ => "dict"
  | .vnone => "NoneType"

/-- Python `str(v)` as used in f-strings; container formatting abbreviated,
no claim depends on it. -/
def Value.pyStr : Value → String
  | .num q => if q.den = 1 then toString q.num else toString q
  | .str s => s
  | .list _ => "[...]"
  | .dict _ => "..."
  | .vnone => "None"

/-- Message of the TypeError CPython raises for an unsupported binary
operator on the given operand type names. -/
def typeErrorBinOp (op a b : String) : String :=
  "TypeError: unsupported operand type(s) for " ++ op ++ ": " ++ a ++ " and " ++ b

/-- Python `a + b` on the modelled values: numeric addition, sequence
concatenation, otherwise a raised TypeError. -/
def addValue : Value → Value → Except String Value
  | .num a, .num b => .ok (.num (a + b))
  | .str a, .str b => .ok (.str (a ++ b))
  | .list a, .list b => .ok (.list (a ++ b))
  | a, b => .error (typeErrorBinOp "+" a.pyType b.pyType)

/-- Number of copies Python makes for `seq * q`: an int gives its value
clamped at zero, a non-integer is a TypeError. -/
def seqCount (q : ℚ) : Option Nat :=
  if q.den = 1 then some q.num.toNat else Option.none

/-- Python `a * b`: numeric product, sequence repetition by an int,
otherwise a raised TypeError. -/
def mulValue : Value → Value → Except String Value
  | .num a, .num b => .ok (.num (a * b))
  | .str s, .num q =>
    match seqCount q with
    | some n => .ok (.str (String.join (List.replicate n s)))
    | Option.none => .error (typeErrorBinOp "*" "str" "float")
  | .num q, .str s =>
    match seqCount q with
    | some n => .ok (.str (String.join (List.replicate n s)))
    | Option.none => .error (typeErrorBinOp "*" "float" "str")
  | .list xs, .num q =>
    match seqCount q with
    | some n => .ok (.list (List.flatten (List.replicate n xs)))
    | Option.none => .error (typeErrorBinOp "*" "list" "float")
  | .num q, .list xs =>
    match seqCount q with
    | some n => .ok (.list (List.flatten (List.replicate n xs)))
    | Option.none => .error (typeErrorBinOp "*" "float" "list")
  | a, b => .error (typeErrorBinOp "*" a.pyType b.pyType)

/-- Python `a / b`: true division of numbers (exact on `ℚ` where CPython
uses floats; no claim inspects a fractional result), otherwise a raised
error. -/
def divValue : Value → Value → Except String Value
  | .num a, .num b =>
    if decide (b = 0) then .error "ZeroDivisionError: division by zero"
    else .ok (.num (a / b))
  | a, b => .error (typeErrorBinOp "/" a.pyType b.pyType)

/-- Python `v == 0` comparison for the guard in `execute_function`. -/
def valueEqZero : Value → Bool
  | .num q => decide (q = 0)
  | _ => false

/-! ### `test.py`: AuthenticatedMCPServer -/

/-- `SERVER_NAME` from `test.py`. -/
def serverName : String := "add-number-server"

/-- The `self.current_user` dict built by `authenticate_request` from the
auth service response: username, user_id, permissions (default `[]`) and
the authentication timestamp. -/
structure UserInfo where
  username : Value
  user_id : Value
  permissions : Value
  authenticated_at : String
deriving Repr

/-- `self.current_user`: `None` initially and after a failed remote
validation. -/
abbrev ServerState := Option UserInfo

/-- The external auth service as seen through
`validate_token_with_auth_service`: for a token it either returns the
parsed JSON body of a 200 response (a dict) or `none` (non-200 status,
transport error or timeout — the function folds all of these into `None`). -/
abbrev AuthService := Value → Option Args

/-- Build `self.current_user` from the auth service response
(`authenticate_request`, lines 70-75 of `test.py`). -/
def mkUser (auth_data : Args) (now : String) : UserInfo :=
  { username := argsGet auth_data "username"
    user_id := argsGet auth_data "user_id"
    permissions := argsGetD auth_data "permissions" (.list [])
    authenticated_at := now }

/-- `authenticate_request(token)`: a falsy token returns `False` without
touching `self.current_user` (the stale value survives); otherwise the
token is validated remotely, and `self.current_user` is set on success and
cleared to `None` on failure.  Returns the boolean result and the new
`self.current_user`. -/
def authenticate_request (svc : AuthService) (now : String) (token : Value)
    (st : ServerState) : Bool × ServerState :=
  if token.truthy then
    match svc token with
    | some auth_data => (true, some (mkUser auth_data now))
    | Option.none => (false, Option.none)
  else (false, st)

/-- The JSON payload `call_tool`/`handle_add_numbers` serialize into the
returned `TextContent`: either the error envelope
`json.dumps(error msg, success false)` or the success dict built by
`handle_add_numbers` (success true, operation "addition", operands,
result, performed_by, timestamp). -/
inductive ToolResponse where
  | errorResp (error : String)
  | addSuccess (a b result performed_by : Value) (timestamp : String)
deriving Repr

/-- The `result` field of a `USER_ACTIVITY` log entry: the error branches
log the one-key dict of the error message, the success branch logs the
full response dict. -/
inductive LoggedResult where
  | errOnly (msg : String)
  | full (r : ToolResponse)
deriving Repr

/-- One `USER_ACTIVITY` log line from `log_user_activity`. -/
structure AuditRecord where
  timestamp : String
  username : Value
  user_id : Value
  tool_name : String
  arguments : Args
  result : LoggedResult
  server : String
deriving Repr

/-- `log_user_activity`: with `self.current_user` unset only a warning is
emitted and NO `USER_ACTIVITY` record is appended; otherwise exactly one
record is appended, stamped with the stored user's identity. -/
def log_user_activity (st : ServerState) (now : String) (tool_name : String)
    (arguments : Args) (result : LoggedResult) : List AuditRecord :=
  match st with
  | Option.none => []
  | some u =>
    [{ timestamp := now, username := u.username, user_id := u.user_id,
       tool_name := tool_name, arguments := arguments, result := result,
       server := serverName }]

/-- The fixed authentication failure message in `call_tool`. -/
def authFailedMsg : String := "Authentication failed. Invalid or expired token."

/-- The body of the `try` in `handle_add_numbers`: add the two raw operand
values, then build the success dict; `self.current_user["username"]` on an
unset user is itself a raised TypeError (unreachable via `call_tool`, which
only dispatches after successful authentication). -/
def addBody (st : ServerState) (now : String) (args : Args) :
    Except String ToolResponse :=
  match addValue (argsGet args "a") (argsGet args "b") with
  | .error e => .error e
  | .ok r =>
    match st with
    | some u => .ok (.addSuccess (argsGet args "a") (argsGet args "b") r u.username now)
    | Option.none => .error "TypeError: NoneType object is not subscriptable"

/-- `handle_add_numbers`: run the body; any raised exception is caught and
becomes the error envelope `Error in add_numbers: str(e)`; either way one
`log_user_activity` call is made.  Returns the envelope, the audit lines
and the (unchanged) state. -/
def handle_add_numbers (st : ServerState) (now : String) (args : Args) :
    ToolResponse × List AuditRecord × ServerState :=
  match addBody st now args with
  | .ok resp => (resp, log_user_activity st now "add_numbers" args (.full resp), st)
  | .error e =>
    let msg := "Error in add_numbers: " ++ e
    (.errorResp msg, log_user_activity st now "add_numbers" args (.errOnly msg), st)

/-- `call_tool(name, arguments)`: extract `auth_token` from the arguments,
authenticate (which may update `self.current_user`), and either return the
fixed auth-failure envelope, dispatch to `handle_add_numbers`, or return
the unknown-tool envelope.  Returns the envelope, the audit lines of this
call and the new `self.current_user`. -/
def call_tool (svc : AuthService) (now : String) (st : ServerState)
    (name : String) (arguments : Args) :
    ToolResponse × List AuditRecord × ServerState :=
  let token := argsGet arguments "auth_token"
  let auth := authenticate_request svc now token st
  if auth.1 then
    if name = "add_numbers" then
      handle_add_numbers auth.2 now arguments
    else
      let msg := "Unknown tool: " ++ name
      (.errorResp msg, log_user_activity auth.2 now name arguments (.errOnly msg), auth.2)
  else
    (.errorResp authFailedMsg,
     log_user_activity auth.2 now name arguments (.errOnly authFailedMsg), auth.2)

/-! ### `test.py`: declared tool metadata and the HTTP endpoint -/

/-- The static metadata of a declared tool: name, description, the
`properties` of its input schema as (field, JSON type) pairs, and the
schema's `required` list. -/
structure ToolDescriptor where
  name : String
  description : String
  properties : List (String × String)
  required : List String
deriving Repr

/-- The single tool declared by `list_tools` in `test.py`. -/
def addNumbersTool : ToolDescriptor :=
  { name := "add_numbers"
    description := "Add two numbers together (requires authentication)"
    properties := [("auth_token", "string"), ("a", "number"), ("b", "number")]
    required := ["auth_token", "a", "b"] }

/-- The tool list returned by the `tools/list` method. -/
def listedTools : List ToolDescriptor := [addNumbersTool]

/-- One NDJSON line yielded by `generate_response` in `mcp_endpoint`. -/
inductive RpcResponse where
  | listResult (id : Value) (tools : List ToolDescriptor)
  | callResult (id : Value) (resp : ToolResponse)
  | rpcError (id : Value) (code : Int) (message : String)
deriving Repr

/-- What the endpoint's streamed body amounts to: either the yielded lines,
or an exception escaping the generator (the stream breaks, no structured
error line is produced). -/
inductive EndpointResult where
  | lines (out : List RpcResponse)
  | crash (exn : String)
deriving Repr

/-- The exception escaping `generate_response` when `json.loads` fails:
the `except` block evaluates `request_data.get("id", None)` but
`request_data` was never assigned. -/
def unboundLocalMsg : String :=
  "UnboundLocalError: local variable request_data referenced before assignment"

/-- Message of the AttributeError raised by calling `.get` on a non-dict. -/
def attributeErrGet (ty : String) : String :=
  "AttributeError: " ++ ty ++ " object has no attribute get"

/-- Python `v == s` for a string literal `s`: equal strings compare true,
any non-string value compares false. -/
def Value.strEq (v : Value) (s : String) : Bool :=
  match v with
  | .str t => decide (t = s)
  | _ => false

/-- `mcp_endpoint` / `generate_response`: takes the outcome of
`json.loads(body)` (a parse error or the parsed value) plus the module
global server state, and produces the streamed outcome, the audit lines
and the new state.  A parse failure reaches the `except` block with
`request_data` unbound, so the handler itself raises and the generator
crashes; a parsed non-dict body makes both `request_data.get("method")`
and then the `except` block's `request_data.get("id", None)` raise, so the
generator crashes too.  A non-dict `params` or `arguments` raises inside
the `try` after `request_data` is bound, so it is converted into the
structured `-32603` internal error line. -/
def mcp_endpoint (svc : AuthService) (now : String) (st : ServerState)
    (parsedBody : Except String Value) :
    EndpointResult × List AuditRecord × ServerState :=
  match parsedBody with
  | .error _ => (.crash unboundLocalMsg, [], st)
  | .ok (.dict rd) =>
    let method := argsGet rd "method"
    let rid := argsGet rd "id"
    if method.strEq "tools/list" then
      (.lines [.listResult rid listedTools], [], st)
    else if method.strEq "tools/call" then
      match argsGetD rd "params" (.dict []) with
      | .dict params =>
        (match argsGetD params "arguments" (.dict []) with
         | .dict arguments =>
           let r := call_tool svc now st ((argsGet params "name").pyStr) arguments
           (.lines [.callResult rid r.1], r.2.1, r.2.2)
         | other =>
           (.lines [.rpcError rid (-32603)
              ("Internal error: " ++ attributeErrGet other.pyType)], [], st))
      | other =>
        (.lines [.rpcError rid (-32603)
           ("Internal error: " ++ attributeErrGet other.pyType)], [], st)
    else
      (.lines [.rpcError rid (-32601) "Method not found"], [], st)
  | .ok other => (.crash (attributeErrGet other.pyType), [], st)

/-! ### `math_test.py`: execute_function -/

/-- The JSON dict `execute_function` returns: a result dict or an error
dict. -/
inductive FnResult where
  | res (v : Value)
  | err (msg : String)
deriving Repr

/-- `execute_function(function_name, args)` from `math_test.py`, with
raised exceptions made explicit in the `Except` layer (the caller
`do_POST` catches them and sends an HTTP 500). -/
def execute_function (function_name : String) (args : Args) :
    Except String FnResult :=
  if function_name = "add" then
    match addValue (argsGetD args "a" (.num 0)) (argsGetD args "b" (.num 0)) with
    | .ok r => .ok (.res r)
    | .error e => .error e
  else if function_name = "multiply" then
    match mulValue (argsGetD args "a" (.num 0)) (argsGetD args "b" (.num 0)) with
    | .ok r => .ok (.res r)
    | .error e => .error e
  else if function_name = "divide" then
    let a := argsGetD args "a" (.num 0)
    let b := argsGetD args "b" (.num 1)
    if valueEqZero b then .ok (.err "Division by zero")
    else
      match divValue a b with
      | .ok r => .ok (.res r)
      | .error e => .error e
  else .ok (.err ("Unknown function: " ++ function_name))

/-! ### A concrete environment for witnesses and counterexamples -/

/-- A concrete model of the external auth service: it accepts exactly the
token "valid-token" and then answers with the JSON body
`username alice, user_id u1`; every other token gets a non-200 answer. -/
def demoService : AuthService := fun token =>
  match token with
  | .str s =>
    if s = "valid-token" then
      some [("username", .str "alice"), ("user_id", .str "u1")]
    else Option.none
  | _ => Option.none

/-- The user record `demoService` induces for "valid-token". -/
def demoUser (now : String) : UserInfo :=
  { username := .str "alice", user_id := .str "u1",
    permissions := .list [], authenticated_at := now }

/-- Whether an envelope is the success dict. -/
def ToolResponse.isSuccess : ToolResponse → Bool
  | .addSuccess _ _ _ _ _ => true
  | .errorResp _ => false

/-- A logged `result` field agrees with the returned envelope: error
branches log the one-key error dict with the same message, the success
branch logs the full response dict. -/
def outcomeMatches : LoggedResult → ToolResponse → Prop
  | .errOnly m, .errorResp m2 => m = m2
  | .errOnly _, .addSuccess _ _ _ _ _ => False
  | .full r, r2 => r = r2

/-- All argument values in a dict are numbers. -/
def NumericArgs (args : Args) : Prop := ∀ p ∈ args, ∃ q : ℚ, p.2 = Value.num q

/-! ### Helper lemmas -/

lemma log_user_activity_length (st : ServerState) (now tool : String)
    (args : Args) (res : LoggedResult) :
    (log_user_activity st now tool args res).length
      = if st.isSome then 1 else 0 := by
  cases st <;> rfl

lemma log_user_activity_mem (st : ServerState) (now tool : String)
    (args : Args) (res : LoggedResult) (rec : AuditRecord)
    (h : rec ∈ log_user_activity st now tool args res) :
    rec.tool_name = tool ∧ rec.result = res := by
  cases st with
  | none => simp [log_user_activity] at h
  | some u =>
    simp only [log_user_activity, List.mem_singleton] at h
    subst h
    exact ⟨rfl, rfl⟩

/-- With an invalid or missing credential, `call_tool` takes the
authentication-failure branch. -/
lemma call_tool_authfail (svc : AuthService) (now : String) (st : ServerState)
    (name : String) (args : Args)
    (h : (argsGet args "auth_token").truthy = false ∨
         svc (argsGet args "auth_token") = Option.none) :
    (call_tool svc now st name args).1 = .errorResp authFailedMsg := by
  have hauth : (authenticate_request svc now (argsGet args "auth_token") st).1 = false := by
    cases hb : (argsGet args "auth_token").truthy with
    | false => simp [authenticate_request, hb]
    | true =>
      rcases h with h | h
      · rw [hb] at h
        exact absurd h (by simp)
      · simp [authenticate_request, hb, h]
  simp [call_tool, hauth]

/-- With a token the auth service accepts, `call_tool` dispatches with
`self.current_user` freshly set from this request's token. -/
lemma call_tool_authok (svc : AuthService) (now : String) (st : ServerState)
    (name : String) (args : Args) (auth_data : Args)
    (htok : (argsGet args "auth_token").truthy = true)
    (hsvc : svc (argsGet args "auth_token") = some auth_data) :
    call_tool svc now st name args =
      if name = "add_numbers" then
        handle_add_numbers (some (mkUser auth_data now)) now args
      else
        let msg := "Unknown tool: " ++ name
        (.errorResp msg,
         log_user_activity (some (mkUser auth_data now)) now name args (.errOnly msg),
         some (mkUser auth_data now)) := by
  simp [call_tool, authenticate_request, htok, hsvc]

lemma argsFind_mem (args : Args) (k : String) (v : Value)
    (h : argsFind args k = some v) : (k, v) ∈ args := by
  induction args with
  | nil => simp [argsFind] at h
  | cons p rest ih =>
    rw [argsFind] at h
    by_cases hk : p.1 = k
    · rw [if_pos hk] at h
      cases h
      have hp : (k, p.2) = p := by
        rw [← hk]
      rw [hp]
      exact List.Mem.head rest
    · rw [if_neg hk] at h
      exact List.mem_cons_of_mem _ (ih h)

lemma argsGetD_numeric (args : Args) (k : String) (d : ℚ)
    (h : NumericArgs args) : ∃ q : ℚ, argsGetD args k (.num d) = .num q := by
  unfold argsGetD
  cases hf : argsFind args k with
  | none => exact ⟨d, rfl⟩
  | some v =>
    obtain ⟨q, hq⟩ := h (k, v) (argsFind_mem args k v hf)
    exact ⟨q, hq⟩

/-! ### Claims -/

/-- C1: for every invocation whose credential is missing or fails
validation, `call_tool` returns the fixed authentication-failure envelope,
and the response is the same whether the requested name is the registered
`add_numbers` or any other name — tool existence is not observable before
authentication. -/
theorem C1_invalid_credential_uniform (svc : AuthService) (now : String)
    (st : ServerState) (name name2 : String) (args : Args)
    (h : (argsGet args "auth_token").truthy = false ∨
         svc (argsGet args "auth_token") = Option.none) :
    (call_tool svc now st name args).1 = .errorResp authFailedMsg ∧
    (call_tool svc now st name args).1 = (call_tool svc now st name2 args).1 := by
  have h1 := call_tool_authfail svc now st name args h
  have h2 := call_tool_authfail svc now st name2 args h
  exact ⟨h1, h1.trans h2.symm⟩

/-- C1 witness: with no `auth_token` in the arguments, calling the
registered `add_numbers` and the unregistered `multiply` both yield the
authentication-failure envelope. -/
theorem C1_invalid_credential_uniform_witness :
    (call_tool demoService "t0" Option.none "add_numbers" []).1
      = .errorResp authFailedMsg ∧
    (call_tool demoService "t0" Option.none "add_numbers" []).1
      = (call_tool demoService "t0" Option.none "multiply" []).1 :=
  C1_invalid_credential_uniform demoService "t0" Option.none "add_numbers"
    "multiply" [] (Or.inl rfl)

/-- C2 counterexample: one request with an invalid credential — a
`tools/call` carrying operands but no token, from a fresh server — appends
ZERO audit records, not the one record with subject "anonymous" the claim
requires: `log_user_activity` returns before logging when
`self.current_user` is unset. -/
theorem C2_failed_auth_not_audited :
    (call_tool demoService "t0" Option.none "add_numbers"
       [("a", .num 10), ("b", .num 5)]).2.1 = [] := rfl

/-- C2 amended: each `call_tool` invocation appends exactly one audit
record when `self.current_user` is set after authentication (a valid
token, or a missing token with a stale identity retained from an earlier
request) and zero records otherwise — in particular, a request that fails
authentication from a clean state is not audited at all; every appended
record carries the request's tool name and a `result` matching the
returned envelope. -/
theorem C2_audit_per_request (svc : AuthService) (now : String)
    (st : ServerState) (name : String) (args : Args) :
    (call_tool svc now st name args).2.1.length
      = (if (authenticate_request svc now (argsGet args "auth_token") st).2.isSome
         then 1 else 0) ∧
    ∀ rec ∈ (call_tool svc now st name args).2.1,
      rec.tool_name = name ∧
      outcomeMatches rec.result (call_tool svc now st name args).1 := by
  cases hb : (argsGet args "auth_token").truthy with
  | false =>
    have hA : authenticate_request svc now (argsGet args "auth_token") st = (false, st) := by
      simp [authenticate_request, hb]
    have hX : call_tool svc now st name args
        = (.errorResp authFailedMsg,
           log_user_activity st now name args (.errOnly authFailedMsg), st) := by
      simp [call_tool, hA]
    rw [hX, hA]
    refine ⟨log_user_activity_length st now name args _, ?_⟩
    intro rec hrec
    have h2 := log_user_activity_mem st now name args _ rec hrec
    exact ⟨h2.1, by rw [h2.2]; simp [outcomeMatches]⟩
  | true =>
    cases hsvc : svc (argsGet args "auth_token") with
    | none =>
      have hA : authenticate_request svc now (argsGet args "auth_token") st
          = (false, Option.none) := by
        simp [authenticate_request, hb, hsvc]
      have hX : call_tool svc now st name args
          = (.errorResp authFailedMsg, [], Option.none) := by
        simp [call_tool, hA, log_user_activity]
      rw [hX, hA]
      exact ⟨rfl, by intro rec hrec; simp at hrec⟩
    | some auth_data =>
      have hA : authenticate_request svc now (argsGet args "auth_token") st
          = (true, some (mkUser auth_data now)) := by
        simp [authenticate_request, hb, hsvc]
      by_cases hn : name = "add_numbers"
      · subst hn
        cases hbody : addBody (some (mkUser auth_data now)) now args with
        | ok resp =>
          have hX : call_tool svc now st "add_numbers" args
              = (resp,
                 log_user_activity (some (mkUser auth_data now)) now
                   "add_numbers" args (.full resp),
                 some (mkUser auth_data now)) := by
            simp [call_tool, hA, handle_add_numbers, hbody]
          rw [hX, hA]
          refine ⟨log_user_activity_length (some (mkUser auth_data now)) now
            "add_numbers" args (.full resp), ?_⟩
          intro rec hrec
          have h2 := log_user_activity_mem (some (mkUser auth_data now)) now
            "add_numbers" args (.full resp) rec hrec
          exact ⟨h2.1, by rw [h2.2]; simp [outcomeMatches]⟩
        | error e =>
          have hX : call_tool svc now st "add_numbers" args
              = (.errorResp ("Error in add_numbers: " ++ e),
                 log_user_activity (some (mkUser auth_data now)) now
                   "add_numbers" args (.errOnly ("Error in add_numbers: " ++ e)),
                 some (mkUser auth_data now)) := by
            simp [call_tool, hA, handle_add_numbers, hbody]
          rw [hX, hA]
          refine ⟨log_user_activity_length (some (mkUser auth_data now)) now
            "add_numbers" args (.errOnly ("Error in add_numbers: " ++ e)), ?_⟩
          intro rec hrec
          have h2 := log_user_activity_mem (some (mkUser auth_data now)) now
            "add_numbers" args _ rec hrec
          exact ⟨h2.1, by rw [h2.2]; simp [outcomeMatches]⟩
      · have hX : call_tool svc now st name args
            = (.errorResp ("Unknown tool: " ++ name),
               log_user_activity (some (mkUser auth_data now)) now
                 name args (.errOnly ("Unknown tool: " ++ name)),
               some (mkUser auth_data now)) := by
          simp [call_tool, hA, hn]
        rw [hX, hA]
        refine ⟨log_user_activity_length (some (mkUser auth_data now)) now
          name args (.errOnly ("Unknown tool: " ++ name)), ?_⟩
        intro rec hrec
        have h2 := log_user_activity_mem (some (mkUser auth_data now)) now
          name args _ rec hrec
        exact ⟨h2.1, by rw [h2.2]; simp [outcomeMatches]⟩

/-- C2 amended witness: an authenticated request whose handler fails still
appends exactly one record, and that record names the tool and matches the
returned error envelope. -/
theorem C2_audit_per_request_witness :
    (call_tool demoService "t0" Option.none "add_numbers"
       [("auth_token", .str "valid-token")]).2.1.length = 1 ∧
    ∀ rec ∈ (call_tool demoService "t0" Option.none "add_numbers"
       [("auth_token", .str "valid-token")]).2.1,
      rec.tool_name = "add_numbers" ∧
      outcomeMatches rec.result
        (call_tool demoService "t0" Option.none "add_numbers"
          [("auth_token", .str "valid-token")]).1 := by
  have h := C2_audit_per_request demoService "t0" Option.none "add_numbers"
    [("auth_token", .str "valid-token")]
  exact ⟨h.1, h.2⟩

/-- C3: with a credential the auth service accepts, invoking the
registered tool succeeds exactly when the handler body does; concretely,
`add_numbers` with operands 10 and 5 yields the success envelope with
result 15 performed by the validated username, any request with an
invalid/missing credential yields the authentication-failure envelope, and
the unregistered `multiply` under the valid credential yields the
unknown-tool envelope. -/
theorem C3_end_to_end (svc : AuthService) (now : String) (st : ServerState)
    (tok : Value) (auth_data : Args)
    (htok : tok.truthy = true) (hsvc : svc tok = some auth_data) :
    (∀ args, argsGet args "auth_token" = tok →
       ((call_tool svc now st "add_numbers" args).1.isSuccess = true ↔
         ∃ r, addValue (argsGet args "a") (argsGet args "b") = .ok r)) ∧
    (call_tool svc now st "add_numbers"
        [("auth_token", tok), ("a", .num 10), ("b", .num 5)]).1
      = .addSuccess (.num 10) (.num 5) (.num 15) (argsGet auth_data "username") now ∧
    (∀ name args,
       ((argsGet args "auth_token").truthy = false ∨
        svc (argsGet args "auth_token") = Option.none) →
       (call_tool svc now st name args).1 = .errorResp authFailedMsg) ∧
    (call_tool svc now st "multiply"
        [("auth_token", tok), ("a", .num 10), ("b", .num 5)]).1
      = .errorResp "Unknown tool: multiply" := by
  have hget : argsGet [("auth_token", tok), ("a", Value.num 10), ("b", Value.num 5)]
      "auth_token" = tok := rfl
  refine ⟨?_, ?_, ?_, ?_⟩
  · intro args harg
    rw [call_tool_authok svc now st "add_numbers" args auth_data
      (by rw [harg]; exact htok) (by rw [harg]; exact hsvc), if_pos rfl]
    cases hadd : addValue (argsGet args "a") (argsGet args "b") with
    | ok r =>
      simp [handle_add_numbers, addBody, hadd, ToolResponse.isSuccess]
    | error e =>
      simp [handle_add_numbers, addBody, hadd, ToolResponse.isSuccess]
  · rw [call_tool_authok svc now st "add_numbers" _ auth_data
      (by rw [hget]; exact htok) (by rw [hget]; exact hsvc), if_pos rfl]
    have hadd : addValue (Value.num 10) (Value.num 5) = .ok (.num 15) := by
      simp [addValue]
      norm_num
    simp [handle_add_numbers, addBody, argsGet, argsFind, hadd, mkUser]
  · intro name args h
    exact call_tool_authfail svc now st name args h
  · rw [call_tool_authok svc now st "multiply" _ auth_data
      (by rw [hget]; exact htok) (by rw [hget]; exact hsvc),
      if_neg (by decide)]
    rfl

/-- C3 witness: the three scenario results under the concrete demo auth
service and its accepted token. -/
theorem C3_end_to_end_witness :
    (call_tool demoService "t0" Option.none "add_numbers"
        [("auth_token", .str "valid-token"), ("a", .num 10), ("b", .num 5)]).1
      = .addSuccess (.num 10) (.num 5) (.num 15) (.str "alice") "t0" ∧
    (call_tool demoService "t0" Option.none "add_numbers"
        [("a", .num 10), ("b", .num 5)]).1 = .errorResp authFailedMsg ∧
    (call_tool demoService "t0" Option.none "multiply"
        [("auth_token", .str "valid-token"), ("a", .num 10), ("b", .num 5)]).1
      = .errorResp "Unknown tool: multiply" := by
  have h := C3_end_to_end demoService "t0" Option.none (.str "valid-token")
    [("username", .str "alice"), ("user_id", .str "u1")] rfl rfl
  exact ⟨h.2.1, h.2.2.1 "add_numbers" [("a", .num 10), ("b", .num 5)] (Or.inl rfl),
    h.2.2.2⟩

/-- C4: any exception raised inside the `add_numbers` handler body is
caught and becomes the failure envelope `Error in add_numbers: str(e)` —
at the handler level for every state and arguments, and end-to-end through
`call_tool` for an authenticated request whose handler body faults; the
fault never escapes (`handle_add_numbers` and `call_tool` return an
envelope on every input, their return type carrying no exception). -/
theorem C4_handler_fault_contained (svc : AuthService) (now : String)
    (st : ServerState) (args : Args) (auth_data : Args) (e : String)
    (htok : (argsGet args "auth_token").truthy = true)
    (hsvc : svc (argsGet args "auth_token") = some auth_data)
    (hbody : addBody (some (mkUser auth_data now)) now args = .error e) :
    (∀ st2 args2 e2, addBody st2 now args2 = .error e2 →
       (handle_add_numbers st2 now args2).1
         = .errorResp ("Error in add_numbers: " ++ e2)) ∧
    (call_tool svc now st "add_numbers" args).1
      = .errorResp ("Error in add_numbers: " ++ e) := by
  refine ⟨?_, ?_⟩
  · intro st2 args2 e2 h2
    simp [handle_add_numbers, h2]
  · rw [call_tool_authok svc now st "add_numbers" args auth_data htok hsvc,
      if_pos rfl]
    simp [handle_add_numbers, hbody]

/-- C4 witness: an authenticated call with both operands absent makes the
handler body raise a TypeError on `None + None`, and the caller receives
the converted failure envelope. -/
theorem C4_handler_fault_contained_witness :
    (call_tool demoService "t0" Option.none "add_numbers"
       [("auth_token", .str "valid-token")]).1
      = .errorResp ("Error in add_numbers: "
          ++ typeErrorBinOp "+" "NoneType" "NoneType") :=
  (C4_handler_fault_contained demoService "t0" Option.none
    [("auth_token", .str "valid-token")]
    [("username", .str "alice"), ("user_id", .str "u1")]
    (typeErrorBinOp "+" "NoneType" "NoneType") rfl rfl rfl).2

/-- C5 counterexample: there is no argument validation in `call_tool`.
With a literally empty arguments dict the call fails authentication (the
credential travels inside the arguments), and with a valid credential but
no operands the outcome is the caught handler TypeError, i.e. a
handler-crash-derived envelope — in neither case an
INVALID_ARGUMENTS-style validation failure produced before the handler
runs. -/
theorem C5_no_schema_validation :
    (call_tool demoService "t0" Option.none "add_numbers" []).1
      = .errorResp authFailedMsg ∧
    (call_tool demoService "t0" Option.none "add_numbers"
       [("auth_token", .str "valid-token")]).1
      = .errorResp ("Error in add_numbers: "
          ++ typeErrorBinOp "+" "NoneType" "NoneType") :=
  ⟨rfl, rfl⟩

/-- C5 amended: although the declared input schema marks `a` and `b` as
required number fields, `call_tool` performs no schema validation: a valid
credential with the operands absent reaches the handler, which crashes on
`None + None`, and the caller gets the caught-TypeError envelope rather
than a validation failure. -/
theorem C5_missing_required_args_hit_handler (svc : AuthService)
    (now : String) (st : ServerState) (tok : Value) (auth_data : Args)
    (htok : tok.truthy = true) (hsvc : svc tok = some auth_data) :
    (call_tool svc now st "add_numbers" [("auth_token", tok)]).1
      = .errorResp ("Error in add_numbers: "
          ++ typeErrorBinOp "+" "NoneType" "NoneType") ∧
    "a" ∈ addNumbersTool.required ∧ "b" ∈ addNumbersTool.required := by
  refine ⟨?_, by decide, by decide⟩
  rw [call_tool_authok svc now st "add_numbers" [("auth_token", tok)] auth_data
    htok hsvc, if_pos rfl]
  rfl

/-- C5 amended witness. -/
theorem C5_missing_required_args_hit_handler_witness :
    (call_tool demoService "t1" Option.none "add_numbers"
       [("auth_token", .str "valid-token")]).1
      = .errorResp ("Error in add_numbers: "
          ++ typeErrorBinOp "+" "NoneType" "NoneType") ∧
    "a" ∈ addNumbersTool.required ∧ "b" ∈ addNumbersTool.required :=
  C5_missing_required_args_hit_handler demoService "t1" Option.none
    (.str "valid-token") [("username", .str "alice"), ("user_id", .str "u1")]
    rfl rfl

/-- C6 counterexample: the resolved identity IS cached in cross-request
mutable state.  After one successfully authenticated invocation the server
retains the user; a later request with NO token is then audit-logged under
that stale identity, whereas the same request against a fresh server
appends no record at all — its observable behaviour depends on prior
invocations made with other credentials. -/
theorem C6_stale_identity_reused :
    (call_tool demoService "t1" Option.none "add_numbers"
       [("auth_token", .str "valid-token"), ("a", .str "1"), ("b", .str "2")]).2.2
      = some (demoUser "t1") ∧
    (call_tool demoService "t2" (some (demoUser "t1")) "add_numbers"
       [("a", .str "1"), ("b", .str "2")]).2.1
      = [{ timestamp := "t2", username := .str "alice", user_id := .str "u1",
           tool_name := "add_numbers",
           arguments := [("a", .str "1"), ("b", .str "2")],
           result := .errOnly authFailedMsg, server := serverName }] ∧
    (call_tool demoService "t2" Option.none "add_numbers"
       [("a", .str "1"), ("b", .str "2")]).2.1 = [] :=
  ⟨rfl, rfl, rfl⟩

/-- C6 amended: the returned envelope (including the `performed_by`
subject, which is always taken from the identity freshly resolved from
this request's own token) depends only on the request's credential and
arguments — running the same request after any prior state yields the same
envelope; the stored `self.current_user`, however, is cross-request
mutable state, and a token-less request leaves a stale identity in place
for audit logging (see the counterexample). -/
theorem C6_envelope_state_independent (svc : AuthService) (now : String)
    (name : String) (args : Args) (st st2 : ServerState) :
    (call_tool svc now st name args).1 = (call_tool svc now st2 name args).1 := by
  cases hb : (argsGet args "auth_token").truthy with
  | false =>
    have h1 := call_tool_authfail svc now st name args (Or.inl hb)
    have h2 := call_tool_authfail svc now st2 name args (Or.inl hb)
    rw [h1, h2]
  | true =>
    cases hsvc : svc (argsGet args "auth_token") with
    | none =>
      have h1 := call_tool_authfail svc now st name args (Or.inr hsvc)
      have h2 := call_tool_authfail svc now st2 name args (Or.inr hsvc)
      rw [h1, h2]
    | some auth_data =>
      rw [call_tool_authok svc now st name args auth_data hb hsvc,
        call_tool_authok svc now st2 name args auth_data hb hsvc]

/-- C7 counterexample: a handler fault's internal exception text is NOT
kept out of the client-visible envelope — adding a string to a number
raises a TypeError whose text is embedded verbatim after the
`Error in add_numbers: ` prefix (and that text is nonempty). -/
theorem C7_exception_text_reaches_client :
    (call_tool demoService "t0" Option.none "add_numbers"
       [("auth_token", .str "valid-token"), ("a", .str "x"), ("b", .num 2)]).1
      = .errorResp ("Error in add_numbers: " ++ typeErrorBinOp "+" "str" "int") ∧
    typeErrorBinOp "+" "str" "int" ≠ "" :=
  ⟨rfl, by decide⟩

/-- C7 amended: error strings surfaced to the caller embed the raw
exception text rather than a sanitized description: every handler fault
`e` is returned as `Error in add_numbers: str(e)`, and the HTTP endpoint's
structured internal-error line embeds `Internal error: str(e)` (shown for
the reachable in-`try` fault of calling `.get` on a null `params`). -/
theorem C7_raw_exception_in_messages (svc : AuthService) (now : String)
    (st : ServerState) (rid : Value) :
    (∀ st2 args e, addBody st2 now args = .error e →
       (handle_add_numbers st2 now args).1
         = .errorResp ("Error in add_numbers: " ++ e)) ∧
    (mcp_endpoint svc now st
        (.ok (.dict [("method", .str "tools/call"), ("params", .vnone),
                     ("id", rid)]))).1
      = .lines [.rpcError rid (-32603)
          ("Internal error: " ++ attributeErrGet "NoneType")] := by
  refine ⟨?_, rfl⟩
  intro st2 args e h2
  simp [handle_add_numbers, h2]

/-- C7 amended witness. -/
theorem C7_raw_exception_in_messages_witness :
    (handle_add_numbers Option.none "t0" []).1
      = .errorResp ("Error in add_numbers: "
          ++ typeErrorBinOp "+" "NoneType" "NoneType") :=
  (C7_raw_exception_in_messages demoService "t0" Option.none .vnone).1
    Option.none [] (typeErrorBinOp "+" "NoneType" "NoneType") rfl

/-- C8: a parsed request whose `method` is neither `tools/list` nor
`tools/call` yields the structured JSON-RPC error with code `-32601`; but
when the body fails to parse, the `except` block itself raises
(`request_data` is unbound where it evaluates `request_data.get`), so the
generator crashes and NO structured `-32603` error is produced — the
internal-error half of the claim is broken by this slip. -/
theorem C8_unknown_method_and_parse_error (svc : AuthService) (now : String)
    (st : ServerState) :
    (∀ rd : Args, (argsGet rd "method").strEq "tools/list" = false →
       (argsGet rd "method").strEq "tools/call" = false →
       (mcp_endpoint svc now st (.ok (.dict rd))).1
         = .lines [.rpcError (argsGet rd "id") (-32601) "Method not found"]) ∧
    (∀ e, (mcp_endpoint svc now st (.error e)).1 = .crash unboundLocalMsg) := by
  refine ⟨?_, fun e => rfl⟩
  intro rd h1 h2
  simp [mcp_endpoint, h1, h2]

/-- C8 witness: the concrete unparseable body crashes the generator and a
concrete unknown method gets the `-32601` line. -/
theorem C8_unknown_method_and_parse_error_witness :
    (mcp_endpoint demoService "t0" Option.none
        (.ok (.dict [("method", .str "tools/nope"), ("id", .str "7")]))).1
      = .lines [.rpcError (.str "7") (-32601) "Method not found"] ∧
    (mcp_endpoint demoService "t0" Option.none (.error "Expecting value")).1
      = .crash unboundLocalMsg := by
  have h := C8_unknown_method_and_parse_error demoService "t0" Option.none
  exact ⟨h.1 [("method", .str "tools/nope"), ("id", .str "7")] rfl rfl,
    h.2 "Expecting value"⟩

/-- C9: the `add_numbers` handler applies raw `+` with no type checking on
its operands: string operands are concatenated — `+` on any two strings
yields their concatenation, and an authenticated call with `a = "10"` and
`b = "5"` returns the success envelope with result `"105"`, not a
type-error failure. -/
theorem C9_string_operands_concatenated (svc : AuthService) (now : String)
    (st : ServerState) (tok : Value) (auth_data : Args)
    (htok : tok.truthy = true) (hsvc : svc tok = some auth_data) :
    (∀ s t : String, addValue (.str s) (.str t) = .ok (.str (s ++ t))) ∧
    (call_tool svc now st "add_numbers"
       [("auth_token", tok), ("a", .str "10"), ("b", .str "5")]).1
      = .addSuccess (.str "10") (.str "5") (.str "105")
          (argsGet auth_data "username") now := by
  refine ⟨fun s t => rfl, ?_⟩
  rw [call_tool_authok svc now st "add_numbers"
    [("auth_token", tok), ("a", .str "10"), ("b", .str "5")] auth_data
    htok hsvc, if_pos rfl]
  rfl

/-- C9 witness: the concrete call under the demo auth service. -/
theorem C9_string_operands_concatenated_witness :
    (call_tool demoService "t0" Option.none "add_numbers"
       [("auth_token", .str "valid-token"), ("a", .str "10"), ("b", .str "5")]).1
      = .addSuccess (.str "10") (.str "5") (.str "105") (.str "alice") "t0" :=
  (C9_string_operands_concatenated demoService "t0" Option.none
    (.str "valid-token") [("username", .str "alice"), ("user_id", .str "u1")]
    rfl rfl).2

/-- C10 counterexample: `execute_function` is NOT total over every args
mapping — with a string operand (`a = "x"`, `b` defaulting to `0`) the
`add` branch raises a TypeError that propagates out of the function (its
caller `do_POST` catches it and sends an HTTP 500). -/
theorem C10_raises_on_string_operand :
    execute_function "add" [("a", .str "x")]
      = .error (typeErrorBinOp "+" "str" "int") := rfl

/-- C10 amended: `execute_function` is total and never raises when all
argument values are numbers: missing operands default to `a = 0, b = 0`
for add and multiply and `b = 1` for divide (so with no arguments all
three return result `0`), dividing by zero returns the error dict
`Division by zero` instead of raising, and any unknown function name
returns an `Unknown function` error dict. -/
theorem C10_total_on_numeric_args :
    (∀ function_name args, NumericArgs args →
       ∃ r, execute_function function_name args = .ok r) ∧
    execute_function "add" [] = .ok (.res (.num 0)) ∧
    execute_function "multiply" [] = .ok (.res (.num 0)) ∧
    execute_function "divide" [] = .ok (.res (.num 0)) ∧
    (∀ args, valueEqZero (argsGetD args "b" (.num 1)) = true →
       execute_function "divide" args = .ok (.err "Division by zero")) ∧
    (∀ function_name args, function_name ≠ "add" → function_name ≠ "multiply" →
       function_name ≠ "divide" →
       execute_function function_name args
         = .ok (.err ("Unknown function: " ++ function_name))) := by
  refine ⟨?_, by simp [execute_function, argsGetD, argsFind, addValue],
    by simp [execute_function, argsGetD, argsFind, mulValue], ?_, ?_, ?_⟩
  · intro function_name args h
    by_cases ha : function_name = "add"
    · obtain ⟨qa, hqa⟩ := argsGetD_numeric args "a" 0 h
      obtain ⟨qb, hqb⟩ := argsGetD_numeric args "b" 0 h
      exact ⟨.res (.num (qa + qb)), by simp [execute_function, ha, hqa, hqb, addValue]⟩
    · by_cases hm : function_name = "multiply"
      · obtain ⟨qa, hqa⟩ := argsGetD_numeric args "a" 0 h
        obtain ⟨qb, hqb⟩ := argsGetD_numeric args "b" 0 h
        exact ⟨.res (.num (qa * qb)),
          by simp [execute_function, ha, hm, hqa, hqb, mulValue]⟩
      · by_cases hd : function_name = "divide"
        · obtain ⟨qa, hqa⟩ := argsGetD_numeric args "a" 0 h
          obtain ⟨qb, hqb⟩ := argsGetD_numeric args "b" 1 h
          by_cases hz : qb = 0
          · exact ⟨.err "Division by zero",
              by simp [execute_function, ha, hm, hd, hqa, hqb, valueEqZero, hz]⟩
          · exact ⟨.res (.num (qa / qb)),
              by simp [execute_function, ha, hm, hd, hqa, hqb, valueEqZero, hz,
                divValue]⟩
        · exact ⟨.err ("Unknown function: " ++ function_name),
            by simp [execute_function, ha, hm, hd]⟩
  · simp [execute_function, argsGetD, argsFind, valueEqZero, divValue]
  · intro args hz
    simp [execute_function, hz]
  · intro function_name args ha hm hd
    simp [execute_function, ha, hm, hd]

/-- C10 amended witness: numeric arguments make `add` return without
raising, and an explicit zero divisor yields the division-by-zero error
dict. -/
theorem C10_total_on_numeric_args_witness :
    (∃ r, execute_function "add" [("a", .num 2)] = .ok r) ∧
    execute_function "divide" [("b", .num 0)] = .ok (.err "Division by zero") :=
  ⟨C10_total_on_numeric_args.1 "add" [("a", .num 2)]
     (by
       intro p hp
       rw [List.mem_singleton] at hp
       subst hp
       exact ⟨2, rfl⟩),
   C10_total_on_numeric_args.2.2.2.2.1 [("b", .num 0)] rfl⟩

end MCPTest
